import Mathlib

/-!
# Harvard Shop inventory server — shallow embedding

This file embeds the sale-recording / inventory-consistency core of
`server.js` (an Express + SQLite inventory server) as executable Lean
definitions and proves or refutes the specification claims about it.

Modelling conventions:
* SQLite tables become association lists keyed by row id
  (`AUTOINCREMENT` ids are modelled as `length + 1`).
* Money (`DECIMAL(10,2)` columns, `unit_price`, `total_amount`) is
  modelled as `ℚ`; the JavaScript `x.toFixed(2)` rounding is modelled
  as round-to-nearest at 2 decimals (`round2`), which matches the
  ECMA `toFixed` tie-breaking rule (ties pick the larger numerator)
  up to binary floating-point representation of the inputs.
* A transaction that rolls back returns the original database value;
  committed writes return the updated database value.
* The handler for `POST /api/sales` can hit SQLite errors at each of
  its three write statements; which (if any) write statement fails is
  an oracle parameter `failAt : Option WStep`.  The control flow on
  each failure is translated from the error callbacks in the source:
  a failed sale insert or inventory update runs `ROLLBACK`, while a
  failed stock-movement insert is only logged and `COMMIT` still runs.
* JavaScript truthiness in the validation guard
  (`!product_id || !quantity_sold || !unit_price || quantity_sold <= 0`)
  is modelled as equality with `0` for the numeric request fields.
-/

/-- Round a rational to 2 decimal places, the model of
`parseFloat(x.toFixed(2))` in `server.js`. -/
def round2 (x : ℚ) : ℚ := (round (x * 100) : ℚ) / 100

/-- Lookup in an association list keyed by `Nat` (the model of
`SELECT ... WHERE id = ?` / `WHERE product_id = ?` returning at most
one row). -/
def lookupA {α : Type} : List (Nat × α) → Nat → Option α
  | [], _ => none
  | (k, v) :: t, i => if k = i then some v else lookupA t i

/-- Update the row at key `i` if present, leaving the list unchanged
otherwise (the model of `UPDATE ... WHERE id = ?`, which touches zero
rows when the key is absent). -/
def updateA {α : Type} (f : α → α) : List (Nat × α) → Nat → List (Nat × α)
  | [], _ => []
  | (k, v) :: t, i => if k = i then (k, f v) :: t else (k, v) :: updateA f t i

/-- Does the character list start with the given pattern? -/
def listStarts : List Char → List Char → Bool
  | _, [] => true
  | [], _ :: _ => false
  | a :: as, b :: bs => a == b && listStarts as bs

/-- Does the character list contain the pattern as a contiguous
subsequence? -/
def listContains : List Char → List Char → Bool
  | [], sub => listStarts [] sub
  | h :: t, sub => listStarts (h :: t) sub || listContains t sub

/-- Substring test on strings, used to state that an alert message
embeds a product name or a number. -/
def strContains (hay sub : String) : Bool := listContains hay.data sub.data

/-- A row of the `products` table (descriptive columns that no claim
mentions are elided). -/
structure Product where
  name : String
  sell_price : ℚ
deriving DecidableEq

/-- A row of the `inventory` table (metadata columns elided). -/
structure InvRow where
  quantity : Int
  reorder_level : Int
deriving DecidableEq

/-- A row of the `sales` table. -/
structure SaleRow where
  product_id : Nat
  quantity_sold : Int
  unit_price : ℚ
  total_amount : ℚ
  cashier_name : String
  payment_method : String
deriving DecidableEq

/-- A row of the `stock_movements` table. -/
structure MovementRow where
  product_id : Nat
  movement_type : String
  quantity_change : Int
  previous_quantity : Int
  new_quantity : Int
  reason : String
  user_id : Nat
deriving DecidableEq

/-- A row of the `alerts` table.  `resolved_at` is `some t` once the
`CURRENT_TIMESTAMP` stamp has been written. -/
structure AlertRow where
  product_id : Nat
  alert_type : String
  message : String
  status : String
  priority : String
  resolved_at : Option Nat
  resolved_by : Option String
deriving DecidableEq

/-- The database state: the five tables of `server.js` that the core
flow touches. -/
structure DB where
  products : List (Nat × Product)
  inventory : List (Nat × InvRow)
  sales : List (Nat × SaleRow)
  stock_movements : List MovementRow
  alerts : List (Nat × AlertRow)
deriving DecidableEq

/-- The three write statements of the `POST /api/sales` transaction
that have SQLite error callbacks. -/
inductive WStep
  | insertSale
  | updateInventory
  | insertMovement
deriving DecidableEq

/-- The JSON body of `POST /api/sales`. -/
structure SaleReq where
  product_id : Nat
  quantity_sold : Int
  unit_price : ℚ
  cashier_name : String
  payment_method : String

/-- The JSON body of `PUT /api/products/:id` (descriptive columns that
no claim mentions are elided; `quantity` and `reorder_level` are taken
verbatim from the request, as in the source). -/
structure ProdUpdateReq where
  name : String
  sell_price : ℚ
  quantity : Int
  reorder_level : Int

/-- The observable outcome of `POST /api/sales`: the HTTP status plus
the JSON fields the claims mention. -/
inductive SaleOutcome
  | validationError
  | notFound
  | insufficientStock (available requested : Int)
  | persistenceFailure
  | success (id : Nat) (newQuantity : Int) (lowStockAlert : Bool)
deriving DecidableEq

/-- The observable outcome of `PUT /api/alerts/:id/resolve`. -/
inductive ResolveOutcome
  | ok
  | notFound
deriving DecidableEq

/-- The observable outcome of `PUT /api/products/:id` (error branches
of the inner statements are not modelled; the claims about this
handler concern its validation-free happy path). -/
inductive UpdateOutcome
  | ok
  | notFound
deriving DecidableEq

/-- Does an active `low_stock` alert for the product exist?  This is
the dedup query of `createLowStockAlert` in `server.js`:
`SELECT id FROM alerts WHERE product_id = ? AND alert_type =
'low_stock' AND status = 'active'`.  Note that the query does not
match `out_of_stock` rows. -/
def hasActiveLowStock (db : DB) (product_id : Nat) : Bool :=
  db.alerts.any fun a =>
    a.2.product_id == product_id && a.2.alert_type == "low_stock" &&
      a.2.status == "active"

/-- The helper `createLowStockAlert(productId, currentQuantity,
reorderLevel)` of `server.js`: if the dedup query finds a row, or the
product does not exist, nothing is inserted; otherwise one alert row
is appended, classified by `currentQuantity === 0`. -/
def createLowStockAlert (db : DB) (product_id : Nat)
    (currentQuantity reorderLevel : Int) : DB :=
  if hasActiveLowStock db product_id then db
  else
    match lookupA db.products product_id with
    | none => db
    | some product =>
      let priority := if currentQuantity = 0 then "critical" else "high"
      let alertType := if currentQuantity = 0 then "out_of_stock" else "low_stock"
      let message :=
        if currentQuantity = 0 then product.name ++ " is out of stock"
        else product.name ++ " is running low (" ++ toString currentQuantity ++
          " remaining, reorder at " ++ toString reorderLevel ++ ")"
      { db with
          alerts := db.alerts ++
            [(db.alerts.length + 1,
              { product_id := product_id, alert_type := alertType,
                message := message, status := "active", priority := priority,
                resolved_at := none, resolved_by := none })] }

/-- The `POST /api/sales` handler of `server.js`.  `failAt` is the
oracle saying which write statement (if any) hits a SQLite error;
`actor` is `req.user.userId`.  Branches mirror the source: validation,
availability check with `ROLLBACK`, the three writes, and the
post-commit best-effort alert evaluation.  A failed stock-movement
insert is only logged in the source and `COMMIT` still runs, so in
that branch the sale row and the inventory update persist while no
movement row is appended. -/
def recordSale (db : DB) (failAt : Option WStep) (actor : Nat)
    (req : SaleReq) : SaleOutcome × DB :=
  if req.product_id = 0 ∨ req.quantity_sold = 0 ∨ req.unit_price = 0 ∨
      req.quantity_sold ≤ 0 then
    (.validationError, db)
  else
    let total_amount := round2 ((req.quantity_sold : ℚ) * req.unit_price)
    match lookupA db.inventory req.product_id with
    | none => (.notFound, db)
    | some row =>
      if row.quantity < req.quantity_sold then
        (.insufficientStock row.quantity req.quantity_sold, db)
      else
        let previousQuantity := row.quantity
        let newQuantity := previousQuantity - req.quantity_sold
        if failAt = some WStep.insertSale then (.persistenceFailure, db)
        else
          let saleId := db.sales.length + 1
          let sale : SaleRow :=
            { product_id := req.product_id, quantity_sold := req.quantity_sold,
              unit_price := req.unit_price, total_amount := total_amount,
              cashier_name := req.cashier_name,
              payment_method := req.payment_method }
          if failAt = some WStep.updateInventory then (.persistenceFailure, db)
          else
            let db1 : DB :=
              { db with
                  sales := db.sales ++ [(saleId, sale)],
                  inventory := updateA (fun r => { r with quantity := newQuantity })
                    db.inventory req.product_id }
            let lowStock : Bool := decide (newQuantity ≤ row.reorder_level)
            if failAt = some WStep.insertMovement then
              let db2 := if lowStock then
                  createLowStockAlert db1 req.product_id newQuantity row.reorder_level
                else db1
              (.success saleId newQuantity lowStock, db2)
            else
              let mv : MovementRow :=
                { product_id := req.product_id, movement_type := "sale",
                  quantity_change := -req.quantity_sold,
                  previous_quantity := previousQuantity,
                  new_quantity := newQuantity,
                  reason := "Sale #" ++ toString saleId, user_id := actor }
              let db2 : DB :=
                { db1 with stock_movements := db1.stock_movements ++ [mv] }
              let db3 := if lowStock then
                  createLowStockAlert db2 req.product_id newQuantity row.reorder_level
                else db2
              (.success saleId newQuantity lowStock, db3)

/-- The `PUT /api/alerts/:id/resolve` handler of `server.js`:
`UPDATE alerts SET status = 'resolved', resolved_at =
CURRENT_TIMESTAMP, resolved_by = ? WHERE id = ?`, answering 404 only
when zero rows change.  The `WHERE` clause has no status condition, so
any existing row matches whatever its current status.  `now` models
`CURRENT_TIMESTAMP`. -/
def resolveAlert (db : DB) (alertId : Nat) (username : String)
    (now : Nat) : ResolveOutcome × DB :=
  match lookupA db.alerts alertId with
  | none => (.notFound, db)
  | some _ =>
    (.ok,
      { db with
          alerts := updateA
            (fun a => { a with
                status := "resolved", resolved_at := some now,
                resolved_by := some username })
            db.alerts alertId })

/-- The `PUT /api/products/:id` handler of `server.js` on its
non-erroring path: update the product row (404 when absent), read the
previous quantity (defaulting to 0 when no inventory row exists),
overwrite the inventory row with the request values verbatim, and
append one `adjustment` movement exactly when the quantity changed.
No validation of `req.quantity` is performed anywhere on this path. -/
def updateProduct (db : DB) (pid : Nat) (req : ProdUpdateReq)
    (actor : Nat) : UpdateOutcome × DB :=
  match lookupA db.products pid with
  | none => (.notFound, db)
  | some _ =>
    let products1 := updateA
      (fun p => { p with name := req.name, sell_price := req.sell_price })
      db.products pid
    let previousQuantity :=
      match lookupA db.inventory pid with
      | some r => r.quantity
      | none => 0
    let inventory1 := updateA
      (fun r => { r with
          quantity := req.quantity, reorder_level := req.reorder_level })
      db.inventory pid
    let movements1 :=
      if req.quantity ≠ previousQuantity then
        db.stock_movements ++
          [{ product_id := pid, movement_type := "adjustment",
             quantity_change := req.quantity - previousQuantity,
             previous_quantity := previousQuantity,
             new_quantity := req.quantity,
             reason := "Manual adjustment", user_id := actor }]
      else db.stock_movements
    (.ok,
      { db with products := products1, inventory := inventory1,
                stock_movements := movements1 })

/-- Apply a function to every stored sell price, leaving all other
state alone.  Used to state that `recordSale` never reads the stored
sell price. -/
def mapSellPrice (f : ℚ → ℚ) (db : DB) : DB :=
  { db with
      products := db.products.map fun kp =>
        (kp.1, { kp.2 with sell_price := f kp.2.sell_price }) }

/-! ## Concrete database fixtures used by counterexamples and witnesses -/

/-- Fixture: one product with 5 units in stock, reorder level 1. -/
def dbA : DB :=
  { products := [(1, { name := "Mug", sell_price := 13 })],
    inventory := [(1, { quantity := 5, reorder_level := 1 })],
    sales := [], stock_movements := [], alerts := [] }

/-- Fixture: a sale request for 3 units of product 1 at price 10. -/
def reqA : SaleReq :=
  { product_id := 1, quantity_sold := 3, unit_price := 10,
    cashier_name := "John", payment_method := "cash" }

/-- Fixture: one product with 9 units in stock, reorder level 0. -/
def dbB : DB :=
  { products := [(1, { name := "Cap", sell_price := 29 })],
    inventory := [(1, { quantity := 9, reorder_level := 0 })],
    sales := [], stock_movements := [], alerts := [] }

/-- Fixture: a sale request for 6 units of product 1 at price 3. -/
def reqB : SaleReq :=
  { product_id := 1, quantity_sold := 6, unit_price := 3,
    cashier_name := "Ann", payment_method := "card" }

/-- Fixture: one product with 5 units in stock, reorder level 10. -/
def dbC : DB :=
  { products := [(1, { name := "Mug", sell_price := 13 })],
    inventory := [(1, { quantity := 5, reorder_level := 10 })],
    sales := [], stock_movements := [], alerts := [] }

/-- Fixture: an administrative update that carries a negative quantity. -/
def updC : ProdUpdateReq :=
  { name := "Mug", sell_price := 13, quantity := -5, reorder_level := 10 }

/-- Fixture: product 1 already has an ACTIVE out-of-stock alert. -/
def dbDup : DB :=
  { products := [(1, { name := "Mug", sell_price := 13 })],
    inventory := [(1, { quantity := 0, reorder_level := 10 })],
    sales := [], stock_movements := [],
    alerts := [(1, { product_id := 1, alert_type := "out_of_stock",
                     message := "Mug is out of stock", status := "active",
                     priority := "critical", resolved_at := none,
                     resolved_by := none })] }

/-- Fixture: product 1 has an ACTIVE low-stock alert. -/
def dbLow : DB :=
  { products := [(1, { name := "Mug", sell_price := 13 })],
    inventory := [(1, { quantity := 3, reorder_level := 10 })],
    sales := [], stock_movements := [],
    alerts := [(1, { product_id := 1, alert_type := "low_stock",
                     message := "m", status := "active",
                     priority := "high", resolved_at := none,
                     resolved_by := none })] }

/-- Fixture: alert 1 is already resolved (by alice, at time 5). -/
def dbRes : DB :=
  { products := [], inventory := [], sales := [], stock_movements := [],
    alerts := [(1, { product_id := 1, alert_type := "low_stock",
                     message := "m", status := "resolved",
                     priority := "high", resolved_at := some 5,
                     resolved_by := some "alice" })] }

/-- Fixture: alert 1 is active. -/
def dbAct : DB :=
  { products := [], inventory := [], sales := [], stock_movements := [],
    alerts := [(1, { product_id := 1, alert_type := "low_stock",
                     message := "m", status := "active",
                     priority := "high", resolved_at := none,
                     resolved_by := none })] }

/-- Fixture: one product named Mug, no alerts yet. -/
def dbOut : DB :=
  { products := [(1, { name := "Mug", sell_price := 13 })],
    inventory := [(1, { quantity := 0, reorder_level := 10 })],
    sales := [], stock_movements := [], alerts := [] }

/-- Fixture: one product named Cap, no alerts yet. -/
def dbH : DB :=
  { products := [(1, { name := "Cap", sell_price := 29 })],
    inventory := [(1, { quantity := 2, reorder_level := 10 })],
    sales := [], stock_movements := [], alerts := [] }

/-- Fixture: inventory quantity 5, reorder level 15 (spec scenarios 1 and 2). -/
def dbG : DB :=
  { products := [(1, { name := "Mug", sell_price := 13 })],
    inventory := [(1, { quantity := 5, reorder_level := 15 })],
    sales := [], stock_movements := [], alerts := [] }

/-- Fixture: a sale request for 3 units of product 1 at price 10. -/
def reqG : SaleReq :=
  { product_id := 1, quantity_sold := 3, unit_price := 10,
    cashier_name := "Sam", payment_method := "cash" }

/-- Fixture: a sale request for 10 units, more than the 5 available in dbG. -/
def reqI : SaleReq :=
  { product_id := 1, quantity_sold := 10, unit_price := 13,
    cashier_name := "Lee", payment_method := "cash" }

/-- Fixture: 10 units in stock, reorder level 0, stored sell price 13. -/
def dbNeg : DB :=
  { products := [(1, { name := "Mug", sell_price := 13 })],
    inventory := [(1, { quantity := 10, reorder_level := 0 })],
    sales := [], stock_movements := [], alerts := [] }

/-- Fixture: a sale request with a NEGATIVE caller-supplied unit price. -/
def reqNeg : SaleReq :=
  { product_id := 1, quantity_sold := 2, unit_price := -5,
    cashier_name := "Bob", payment_method := "cash" }

/-- C3: whenever the handler reaches the availability check (the
request passes validation and an inventory row exists) and the
available quantity is strictly below the requested quantity, the call
answers `insufficientStock available requested` and the database is
returned unchanged: no Sale, no inventory write, no StockMovement,
regardless of the write-failure oracle. -/
theorem insufficientStockRejection (db : DB) (failAt : Option WStep) (actor : Nat)
    (req : SaleReq) (row : InvRow)
    (hpid : req.product_id ≠ 0) (hprice : req.unit_price ≠ 0)
    (hqty : 0 < req.quantity_sold)
    (hrow : lookupA db.inventory req.product_id = some row)
    (hinsuf : row.quantity < req.quantity_sold) :
    recordSale db failAt actor req =
      (SaleOutcome.insufficientStock row.quantity req.quantity_sold, db) := by
  have hval : ¬(req.product_id = 0 ∨ req.quantity_sold = 0 ∨ req.unit_price = 0 ∨
      req.quantity_sold ≤ 0) := by
    push_neg
    exact ⟨hpid, by omega, hprice, by omega⟩
  unfold recordSale
  rw [if_neg hval, hrow]
  dsimp only
  rw [if_pos hinsuf]

/-- Helper: if the Sale insert or the inventory update statement
fails, the transaction is rolled back: the database is unchanged and
the call never reports success. -/
theorem recordSale_early_fail (db : DB) (actor : Nat) (req : SaleReq) (f : Option WStep)
    (hf : f = some WStep.insertSale ∨ f = some WStep.updateInventory) :
    (recordSale db f actor req).2 = db ∧
      ∀ id nq ls, (recordSale db f actor req).1 ≠ SaleOutcome.success id nq ls := by
  unfold recordSale
  rcases hf with hf | hf <;> subst hf <;>
    (split
     · exact ⟨rfl, by intro id nq ls h; exact SaleOutcome.noConfusion h⟩
     · split
       · exact ⟨rfl, by intro id nq ls h; exact SaleOutcome.noConfusion h⟩
       · split
         · exact ⟨rfl, by intro id nq ls h; exact SaleOutcome.noConfusion h⟩
         · split
           · exact ⟨rfl, by intro id nq ls h; exact SaleOutcome.noConfusion h⟩
           · split
             · exact ⟨rfl, by intro id nq ls h; exact SaleOutcome.noConfusion h⟩
             · simp_all)

/-- Helper: lookup after an in-place update of key `i`. -/
theorem lookupA_updateA {α : Type} (f : α → α) (l : List (Nat × α)) (i j : Nat) :
    lookupA (updateA f l i) j =
      if j = i then (lookupA l i).map f else lookupA l j := by
  induction l with
  | nil => simp [lookupA, updateA]
  | cons hd tl ih =>
    obtain ⟨k, v⟩ := hd
    by_cases hk : k = i
    · subst hk
      by_cases hj : j = k
      · subst hj; simp [lookupA, updateA]
      · have hj2 : ¬ k = j := fun h => hj h.symm
        simp [lookupA, updateA, hj, hj2]
    · by_cases hj : j = i
      · subst hj
        have hk2 : ¬ k = j := hk
        simp [lookupA, updateA, hk, hk2, ih]
      · by_cases hkj : k = j
        · subst hkj; simp [lookupA, updateA, hk, hj]
        · simp [lookupA, updateA, hk, hj, hkj, ih]

/-- Helper: `createLowStockAlert` only ever touches the alerts
table. -/
theorem createLowStockAlert_tables (db : DB) (p : Nat) (q r : Int) :
    (createLowStockAlert db p q r).products = db.products ∧
    (createLowStockAlert db p q r).inventory = db.inventory ∧
    (createLowStockAlert db p q r).sales = db.sales ∧
    (createLowStockAlert db p q r).stock_movements = db.stock_movements := by
  unfold createLowStockAlert
  split
  · exact ⟨rfl, rfl, rfl, rfl⟩
  · split
    · exact ⟨rfl, rfl, rfl, rfl⟩
    · exact ⟨rfl, rfl, rfl, rfl⟩

/-- C2 (amended part): `recordSale` preserves nonnegativity of every
stored inventory quantity, for every request, actor and write-failure
oracle.  The administrative update does NOT preserve it; see the
counterexample. -/
theorem saleQuantityNonneg (db : DB) (failAt : Option WStep) (actor : Nat) (req : SaleReq)
    (hnn : ∀ p r, lookupA db.inventory p = some r → 0 ≤ r.quantity) :
    ∀ p r2, lookupA (recordSale db failAt actor req).2.inventory p = some r2 →
      0 ≤ r2.quantity := by
  intro p r2 hr2
  simp only [recordSale] at hr2
  split at hr2
  · exact hnn p r2 hr2
  · split at hr2
    · exact hnn p r2 hr2
    · rename_i row heq
      split at hr2
      · exact hnn p r2 hr2
      · rename_i hnlt
        split at hr2
        · exact hnn p r2 hr2
        · split at hr2
          · exact hnn p r2 hr2
          · -- committed branches; the inventory component is updateA in both
            have hmain : ∀ db2 : DB,
                db2.inventory =
                  updateA (fun r => { r with quantity := row.quantity - req.quantity_sold })
                    db.inventory req.product_id →
                lookupA db2.inventory p = some r2 → 0 ≤ r2.quantity := by
              intro db2 hinv hl
              rw [hinv, lookupA_updateA] at hl
              by_cases hp : p = req.product_id
              · rw [if_pos hp, heq] at hl
                simp only [Option.map_some'] at hl
                cases hl
                dsimp only
                omega
              · rw [if_neg hp] at hl
                exact hnn p r2 hl
            split at hr2
            · -- movement insert fails: db2 is alert-or-not over db1
              split at hr2
              · refine hmain _ ?_ hr2
                exact (createLowStockAlert_tables _ _ _ _).2.1
              · exact hmain _ rfl hr2
            · split at hr2
              · refine hmain _ ?_ hr2
                exact (createLowStockAlert_tables _ _ _ _).2.1
              · exact hmain _ rfl hr2

/-- C1 (amended): a failure of the Sale insert or of the inventory
update rolls the transaction back (database unchanged, no success
reported); but a failure of the StockMovement insert is only logged
and the transaction still commits: the call reports success, exactly
one Sale row is appended and the inventory quantity is updated, while
no StockMovement row is written. -/
theorem saleAtomicityAmended (db : DB) (actor : Nat) (req : SaleReq) :
    ((recordSale db (some WStep.insertSale) actor req).2 = db ∧
      ∀ id nq ls, (recordSale db (some WStep.insertSale) actor req).1 ≠
        SaleOutcome.success id nq ls) ∧
    ((recordSale db (some WStep.updateInventory) actor req).2 = db ∧
      ∀ id nq ls, (recordSale db (some WStep.updateInventory) actor req).1 ≠
        SaleOutcome.success id nq ls) ∧
    ((recordSale db (some WStep.insertMovement) actor req).2.stock_movements =
        db.stock_movements ∧
      ∀ id nq ls,
        (recordSale db (some WStep.insertMovement) actor req).1 =
            SaleOutcome.success id nq ls →
          (recordSale db (some WStep.insertMovement) actor req).2.sales.length =
              db.sales.length + 1 ∧
          lookupA (recordSale db (some WStep.insertMovement) actor req).2.inventory
              req.product_id =
            (lookupA db.inventory req.product_id).map
              (fun r => { r with quantity := nq })) := by
  refine ⟨recordSale_early_fail db actor req _ (Or.inl rfl),
    recordSale_early_fail db actor req _ (Or.inr rfl), ?_, ?_⟩
  · simp only [recordSale]
    split
    · rfl
    · split
      · rfl
      · split
        · rfl
        · split
          · simp_all
          · split
            · simp_all
            · split
              · split
                · exact (createLowStockAlert_tables _ _ _ _).2.2.2
                · rfl
              · simp_all
  · simp only [recordSale]
    split
    · intro id nq ls h; exact absurd h (fun hh => SaleOutcome.noConfusion hh)
    · split
      · intro id nq ls h; exact absurd h (fun hh => SaleOutcome.noConfusion hh)
      · rename_i row heq
        split
        · intro id nq ls h; exact absurd h (fun hh => SaleOutcome.noConfusion hh)
        · split
          · simp_all
          · split
            · simp_all
            · split
              · intro id nq ls h
                cases h
                split
                · constructor
                  · rw [(createLowStockAlert_tables _ _ _ _).2.2.1]
                    simp
                  · rw [(createLowStockAlert_tables _ _ _ _).2.1, lookupA_updateA, if_pos rfl]
                · constructor
                  · simp
                  · rw [lookupA_updateA, if_pos rfl]
              · simp_all

/-- Helper: the validation guard rejects without touching the
database. -/
theorem recordSale_validation_spec (db : DB) (failAt : Option WStep) (actor : Nat)
    (req : SaleReq)
    (hval : req.product_id = 0 ∨ req.quantity_sold = 0 ∨ req.unit_price = 0 ∨
      req.quantity_sold ≤ 0) :
    recordSale db failAt actor req = (SaleOutcome.validationError, db) := by
  unfold recordSale
  rw [if_pos hval]

/-- Helper: a missing inventory row rejects without touching the
database. -/
theorem recordSale_notFound_spec (db : DB) (failAt : Option WStep) (actor : Nat)
    (req : SaleReq)
    (hval : ¬(req.product_id = 0 ∨ req.quantity_sold = 0 ∨ req.unit_price = 0 ∨
      req.quantity_sold ≤ 0))
    (heq : lookupA db.inventory req.product_id = none) :
    recordSale db failAt actor req = (SaleOutcome.notFound, db) := by
  unfold recordSale
  rw [if_neg hval, heq]

/-- Helper: characterization of the insufficient-stock branch. -/
theorem recordSale_insuf_spec (db : DB) (failAt : Option WStep) (actor : Nat)
    (req : SaleReq) (row : InvRow)
    (hval : ¬(req.product_id = 0 ∨ req.quantity_sold = 0 ∨ req.unit_price = 0 ∨
      req.quantity_sold ≤ 0))
    (heq : lookupA db.inventory req.product_id = some row)
    (hlt : row.quantity < req.quantity_sold) :
    recordSale db failAt actor req =
      (SaleOutcome.insufficientStock row.quantity req.quantity_sold, db) := by
  unfold recordSale
  rw [if_neg hval, heq]
  dsimp only
  rw [if_pos hlt]

/-- Helper: full characterization of a successful sale with no write
failure: the response, the appended sale row, the inventory update,
the appended movement, and the post-commit alert evaluation. -/
theorem recordSale_none_spec (db : DB) (actor : Nat) (req : SaleReq) (row : InvRow)
    (hval : ¬(req.product_id = 0 ∨ req.quantity_sold = 0 ∨ req.unit_price = 0 ∨
      req.quantity_sold ≤ 0))
    (heq : lookupA db.inventory req.product_id = some row)
    (hlt : ¬ row.quantity < req.quantity_sold) :
    recordSale db none actor req =
      (SaleOutcome.success (db.sales.length + 1) (row.quantity - req.quantity_sold)
          (decide (row.quantity - req.quantity_sold ≤ row.reorder_level)),
        (fun db2 : DB =>
          if decide (row.quantity - req.quantity_sold ≤ row.reorder_level) = true
          then createLowStockAlert db2 req.product_id
            (row.quantity - req.quantity_sold) row.reorder_level
          else db2)
          { db with
              sales := db.sales ++ [(db.sales.length + 1,
                { product_id := req.product_id, quantity_sold := req.quantity_sold,
                  unit_price := req.unit_price,
                  total_amount := round2 ((req.quantity_sold : ℚ) * req.unit_price),
                  cashier_name := req.cashier_name,
                  payment_method := req.payment_method })],
              inventory := updateA
                (fun r => { r with quantity := row.quantity - req.quantity_sold })
                db.inventory req.product_id,
              stock_movements := db.stock_movements ++
                [{ product_id := req.product_id, movement_type := "sale",
                   quantity_change := -req.quantity_sold,
                   previous_quantity := row.quantity,
                   new_quantity := row.quantity - req.quantity_sold,
                   reason := "Sale #" ++ toString (db.sales.length + 1),
                   user_id := actor }] }) := by
  unfold recordSale
  rw [if_neg hval, heq]
  dsimp only
  rw [if_neg hlt, if_neg (show ¬(none : Option WStep) = some WStep.insertSale by simp),
    if_neg (show ¬(none : Option WStep) = some WStep.updateInventory by simp),
    if_neg (show ¬(none : Option WStep) = some WStep.insertMovement by simp)]

/-- Helper: full characterization of a sale whose StockMovement
insert fails: the source logs the error and commits anyway, so the
sale row and inventory update persist and no movement is appended. -/
theorem recordSale_movementFail_spec (db : DB) (actor : Nat) (req : SaleReq)
    (row : InvRow)
    (hval : ¬(req.product_id = 0 ∨ req.quantity_sold = 0 ∨ req.unit_price = 0 ∨
      req.quantity_sold ≤ 0))
    (heq : lookupA db.inventory req.product_id = some row)
    (hlt : ¬ row.quantity < req.quantity_sold) :
    recordSale db (some WStep.insertMovement) actor req =
      (SaleOutcome.success (db.sales.length + 1) (row.quantity - req.quantity_sold)
          (decide (row.quantity - req.quantity_sold ≤ row.reorder_level)),
        (fun db2 : DB =>
          if decide (row.quantity - req.quantity_sold ≤ row.reorder_level) = true
          then createLowStockAlert db2 req.product_id
            (row.quantity - req.quantity_sold) row.reorder_level
          else db2)
          { db with
              sales := db.sales ++ [(db.sales.length + 1,
                { product_id := req.product_id, quantity_sold := req.quantity_sold,
                  unit_price := req.unit_price,
                  total_amount := round2 ((req.quantity_sold : ℚ) * req.unit_price),
                  cashier_name := req.cashier_name,
                  payment_method := req.payment_method })],
              inventory := updateA
                (fun r => { r with quantity := row.quantity - req.quantity_sold })
                db.inventory req.product_id }) := by
  unfold recordSale
  rw [if_neg hval, heq]
  dsimp only
  rw [if_neg hlt,
    if_neg (show ¬some WStep.insertMovement = some WStep.insertSale by simp),
    if_neg (show ¬some WStep.insertMovement = some WStep.updateInventory by simp),
    if_pos (show some WStep.insertMovement = some WStep.insertMovement from rfl)]

/-- C4 (amended): whenever the StockMovement insert is not the
failing statement, every change to a stored inventory quantity made by
`recordSale` or by the administrative update is accompanied by exactly
one appended StockMovement row for that product, and that row
satisfies `new_quantity = previous_quantity + quantity_change` with
`previous_quantity` and `new_quantity` matching the stored quantities
before and after.  When the StockMovement insert fails, the quantity
change commits with no movement row; see the counterexample. -/
theorem movementPairingAmended (db : DB) (failAt : Option WStep) (actor : Nat)
    (req : SaleReq) (pid : Nat) (upd : ProdUpdateReq)
    (hf : failAt ≠ some WStep.insertMovement) :
    (∀ p, (lookupA (recordSale db failAt actor req).2.inventory p).map
          (fun r => r.quantity) ≠
        (lookupA db.inventory p).map (fun r => r.quantity) →
      ∃ mv, (recordSale db failAt actor req).2.stock_movements =
          db.stock_movements ++ [mv] ∧
        mv.product_id = p ∧
        mv.new_quantity = mv.previous_quantity + mv.quantity_change ∧
        (lookupA db.inventory p).map (fun r => r.quantity) = some mv.previous_quantity ∧
        (lookupA (recordSale db failAt actor req).2.inventory p).map
            (fun r => r.quantity) = some mv.new_quantity) ∧
    (∀ p, (lookupA (updateProduct db pid upd actor).2.inventory p).map
          (fun r => r.quantity) ≠
        (lookupA db.inventory p).map (fun r => r.quantity) →
      ∃ mv, (updateProduct db pid upd actor).2.stock_movements =
          db.stock_movements ++ [mv] ∧
        mv.product_id = p ∧
        mv.new_quantity = mv.previous_quantity + mv.quantity_change ∧
        (lookupA db.inventory p).map (fun r => r.quantity) = some mv.previous_quantity ∧
        (lookupA (updateProduct db pid upd actor).2.inventory p).map
            (fun r => r.quantity) = some mv.new_quantity) := by
  constructor
  · cases failAt with
    | some w =>
      cases w with
      | insertSale =>
        intro p hne
        rw [(recordSale_early_fail db actor req _ (Or.inl rfl)).1] at hne
        exact absurd rfl hne
      | updateInventory =>
        intro p hne
        rw [(recordSale_early_fail db actor req _ (Or.inr rfl)).1] at hne
        exact absurd rfl hne
      | insertMovement => exact absurd rfl hf
    | none =>
      by_cases hval : (req.product_id = 0 ∨ req.quantity_sold = 0 ∨
          req.unit_price = 0 ∨ req.quantity_sold ≤ 0)
      · intro p hne
        rw [recordSale_validation_spec db none actor req hval] at hne
        exact absurd rfl hne
      · rcases heq : lookupA db.inventory req.product_id with _ | row
        · intro p hne
          rw [recordSale_notFound_spec db none actor req hval heq] at hne
          exact absurd rfl hne
        · by_cases hlt : row.quantity < req.quantity_sold
          · intro p hne
            rw [recordSale_insuf_spec db none actor req row hval heq hlt] at hne
            exact absurd rfl hne
          · intro p hne
            rw [recordSale_none_spec db actor req row hval heq hlt] at hne ⊢
            dsimp only at hne ⊢
            by_cases hp : p = req.product_id
            · subst hp
              refine ⟨{ product_id := req.product_id, movement_type := "sale",
                        quantity_change := -req.quantity_sold,
                        previous_quantity := row.quantity,
                        new_quantity := row.quantity - req.quantity_sold,
                        reason := "Sale #" ++ toString (db.sales.length + 1),
                        user_id := actor }, ?_, rfl, by dsimp only; omega, ?_, ?_⟩
              · split
                · rw [(createLowStockAlert_tables _ _ _ _).2.2.2]
                · rfl
              · rw [heq]; rfl
              · split
                · rw [(createLowStockAlert_tables _ _ _ _).2.1,
                    lookupA_updateA, if_pos rfl, heq]
                  rfl
                · rw [lookupA_updateA, if_pos rfl, heq]
                  rfl
            · exfalso
              apply hne
              split
              · rw [(createLowStockAlert_tables _ _ _ _).2.1, lookupA_updateA, if_neg hp]
              · rw [lookupA_updateA, if_neg hp]
  · simp only [updateProduct]
    split
    · intro p hne; exact absurd rfl hne
    · intro p hne
      by_cases hp : p = pid
      · subst hp
        rcases hinv : lookupA db.inventory p with _ | r0
        · exfalso
          apply hne
          rw [lookupA_updateA, if_pos rfl, hinv]
          rfl
        · dsimp only at hne ⊢
          have hchange : upd.quantity ≠ r0.quantity := by
            intro hcq
            apply hne
            rw [lookupA_updateA, if_pos rfl, hinv]
            simp [hcq]
          refine ⟨{ product_id := p, movement_type := "adjustment",
                    quantity_change := upd.quantity - r0.quantity,
                    previous_quantity := r0.quantity,
                    new_quantity := upd.quantity,
                    reason := "Manual adjustment", user_id := actor },
            by rw [if_pos hchange], rfl, by dsimp only; omega, rfl, ?_⟩
          rw [lookupA_updateA, if_pos rfl, hinv]
          rfl
      · exfalso
        apply hne
        rw [lookupA_updateA, if_neg hp]

/-- C5 (amended): the dedup lookup of `createLowStockAlert` matches
only rows with `alert_type = low_stock` and `status = active`; when
such a row exists for the product the call inserts nothing, so it is
idempotent in that case.  An active `out_of_stock` alert does not
suppress insertion; see the counterexample. -/
theorem alertDedupLowStockOnly (db : DB) (pid : Nat) (q r : Int)
    (h : hasActiveLowStock db pid = true) :
    createLowStockAlert db pid q r = db := by
  unfold createLowStockAlert
  rw [if_pos h]

/-- C6 (amended): `resolveAlert` answers `notFound` (leaving the
database unchanged) exactly when the alert id does not exist; for any
existing alert — whatever its current status, active, resolved or
dismissed — it reports success and overwrites status, resolver and
resolution timestamp. -/
theorem resolveAlertAmended (db : DB) (aid : Nat) (u : String) (t : Nat) :
    (lookupA db.alerts aid = none →
      resolveAlert db aid u t = (ResolveOutcome.notFound, db)) ∧
    (∀ a, lookupA db.alerts aid = some a →
      (resolveAlert db aid u t).1 = ResolveOutcome.ok ∧
      lookupA (resolveAlert db aid u t).2.alerts aid =
        some { a with
               status := "resolved", resolved_at := some t,
               resolved_by := some u }) := by
  constructor
  · intro h
    unfold resolveAlert
    rw [h]
  · intro a h
    unfold resolveAlert
    rw [h]
    dsimp only
    exact ⟨rfl, by rw [lookupA_updateA, if_pos rfl, h]; rfl⟩

/-- C7: a successful sale reports id, `newQuantity = quantity -
quantity_sold`, and a low-stock flag that is true exactly when the new
quantity is at most the reorder level, and appends exactly one sale
row whose `unit_price` is the caller-supplied price and whose
`total_amount` is `quantity_sold * unit_price` rounded to 2 decimal
places. -/
theorem saleSuccessResponse (db : DB) (actor : Nat) (req : SaleReq) (row : InvRow)
    (hpid : req.product_id ≠ 0) (hprice : req.unit_price ≠ 0)
    (hqty : 0 < req.quantity_sold)
    (hrow : lookupA db.inventory req.product_id = some row)
    (hav : req.quantity_sold ≤ row.quantity) :
    (recordSale db none actor req).1 =
      SaleOutcome.success (db.sales.length + 1) (row.quantity - req.quantity_sold)
        (decide (row.quantity - req.quantity_sold ≤ row.reorder_level)) ∧
    ∃ s, (recordSale db none actor req).2.sales =
        db.sales ++ [(db.sales.length + 1, s)] ∧
      s.quantity_sold = req.quantity_sold ∧ s.unit_price = req.unit_price ∧
      s.total_amount = round2 ((req.quantity_sold : ℚ) * req.unit_price) := by
  have hval : ¬(req.product_id = 0 ∨ req.quantity_sold = 0 ∨ req.unit_price = 0 ∨
      req.quantity_sold ≤ 0) := by
    push_neg
    exact ⟨hpid, by omega, hprice, by omega⟩
  have hlt : ¬ row.quantity < req.quantity_sold := not_lt.mpr hav
  rw [recordSale_none_spec db actor req row hval hrow hlt]
  dsimp only
  refine ⟨rfl, { product_id := req.product_id, quantity_sold := req.quantity_sold,
                 unit_price := req.unit_price,
                 total_amount := round2 ((req.quantity_sold : ℚ) * req.unit_price),
                 cashier_name := req.cashier_name,
                 payment_method := req.payment_method }, ?_, rfl, rfl, rfl⟩
  split
  · rw [(createLowStockAlert_tables _ _ _ _).2.2.1]
  · rfl

/-- Helper: a list starts with its own left factor. -/
theorem listStarts_append (xs ys : List Char) : listStarts (xs ++ ys) xs = true := by
  induction xs with
  | nil => simp [listStarts]
  | cons a as ih => simp [listStarts, ih]

/-- Helper: starting with the pattern implies containing it. -/
theorem listContains_of_starts (hay sub : List Char)
    (h : listStarts hay sub = true) : listContains hay sub = true := by
  cases hay with
  | nil =>
    cases sub with
    | nil => rfl
    | cons b bs => exact absurd h (by simp [listStarts])
  | cons a as => simp [listContains, h]

/-- Helper: containment survives prepending. -/
theorem listContains_append_left (pre hay sub : List Char)
    (h : listContains hay sub = true) : listContains (pre ++ hay) sub = true := by
  induction pre with
  | nil => simpa using h
  | cons a as ih => simp [listContains, ih]

/-- Helper: the character data of a concatenation. -/
theorem strData_append (a b : String) : (a ++ b).data = a.data ++ b.data := by
  cases a
  cases b
  rfl

/-- Helper: a string concatenation contains its left factor. -/
theorem strContains_left (s t : String) : strContains (s ++ t) s = true := by
  unfold strContains
  rw [strData_append]
  exact listContains_of_starts _ _ (listStarts_append _ _)

/-- C8 (amended): an inserted alert is classified as claimed
(`currentQuantity = 0` gives type `out_of_stock` with priority
`critical`, otherwise `low_stock` with `high`), and the low-stock
message embeds the product name, the current quantity and the reorder
level; the out-of-stock message embeds only the product name.  See the
counterexample for the missing numbers in the out-of-stock message. -/
theorem alertClassificationAmended (db : DB) (pid : Nat) (q r : Int) (p : Product)
    (hdedup : hasActiveLowStock db pid = false)
    (hp : lookupA db.products pid = some p) :
    ∃ a, (createLowStockAlert db pid q r).alerts =
        db.alerts ++ [(db.alerts.length + 1, a)] ∧
      a.status = "active" ∧ a.product_id = pid ∧
      (q = 0 → a.alert_type = "out_of_stock" ∧ a.priority = "critical" ∧
        strContains a.message p.name = true) ∧
      (q ≠ 0 → a.alert_type = "low_stock" ∧ a.priority = "high" ∧
        strContains a.message p.name = true ∧
        strContains a.message (toString q) = true ∧
        strContains a.message (toString r) = true) := by
  unfold createLowStockAlert
  rw [if_neg (by rw [hdedup]; simp), hp]
  dsimp only
  refine ⟨_, rfl, rfl, rfl, ?_, ?_⟩
  · intro hq
    dsimp only
    rw [if_pos hq, if_pos hq, if_pos hq]
    exact ⟨rfl, rfl, strContains_left _ _⟩
  · intro hq
    dsimp only
    rw [if_neg hq, if_neg hq, if_neg hq]
    refine ⟨rfl, rfl, ?_, ?_, ?_⟩
    · unfold strContains
      simp only [strData_append, List.append_assoc]
      exact listContains_of_starts _ _ (listStarts_append _ _)
    · unfold strContains
      simp only [strData_append, List.append_assoc]
      apply listContains_append_left
      apply listContains_append_left
      exact listContains_of_starts _ _ (listStarts_append _ _)
    · unfold strContains
      simp only [strData_append, List.append_assoc]
      apply listContains_append_left
      apply listContains_append_left
      apply listContains_append_left
      apply listContains_append_left
      exact listContains_of_starts _ _ (listStarts_append _ _)

/-- Helper: characterization of a sale whose Sale insert fails. -/
theorem recordSale_insertSaleFail_spec (db : DB) (actor : Nat) (req : SaleReq)
    (row : InvRow)
    (hval : ¬(req.product_id = 0 ∨ req.quantity_sold = 0 ∨ req.unit_price = 0 ∨
      req.quantity_sold ≤ 0))
    (heq : lookupA db.inventory req.product_id = some row)
    (hlt : ¬ row.quantity < req.quantity_sold) :
    recordSale db (some WStep.insertSale) actor req =
      (SaleOutcome.persistenceFailure, db) := by
  unfold recordSale
  rw [if_neg hval, heq]
  dsimp only
  rw [if_neg hlt, if_pos rfl]

/-- Helper: characterization of a sale whose inventory update
fails. -/
theorem recordSale_updateInvFail_spec (db : DB) (actor : Nat) (req : SaleReq)
    (row : InvRow)
    (hval : ¬(req.product_id = 0 ∨ req.quantity_sold = 0 ∨ req.unit_price = 0 ∨
      req.quantity_sold ≤ 0))
    (heq : lookupA db.inventory req.product_id = some row)
    (hlt : ¬ row.quantity < req.quantity_sold) :
    recordSale db (some WStep.updateInventory) actor req =
      (SaleOutcome.persistenceFailure, db) := by
  unfold recordSale
  rw [if_neg hval, heq]
  dsimp only
  rw [if_neg hlt,
    if_neg (show ¬some WStep.updateInventory = some WStep.insertSale by simp),
    if_pos rfl]

/-- Helper: lookup commutes with mapping the stored sell price. -/
theorem lookupA_mapSP (f : ℚ → ℚ) (l : List (Nat × Product)) (i : Nat) :
    lookupA (l.map fun kp => (kp.1, { kp.2 with sell_price := f kp.2.sell_price })) i =
      (lookupA l i).map (fun p => { p with sell_price := f p.sell_price }) := by
  induction l with
  | nil => rfl
  | cons hd tl ih =>
    obtain ⟨k, v⟩ := hd
    by_cases hk : k = i <;> simp [lookupA, hk, ih]

/-- Helper: `createLowStockAlert` never reads the stored sell price,
so it commutes with rewriting every sell price. -/
theorem createLowStockAlert_map (f : ℚ → ℚ) (db : DB) (pid : Nat) (q r : Int) :
    createLowStockAlert (mapSellPrice f db) pid q r =
      mapSellPrice f (createLowStockAlert db pid q r) := by
  unfold createLowStockAlert
  rw [show hasActiveLowStock (mapSellPrice f db) pid = hasActiveLowStock db pid
    from rfl]
  by_cases h : hasActiveLowStock db pid = true
  · rw [if_pos h, if_pos h]
  · rw [if_neg h, if_neg h,
      show lookupA (mapSellPrice f db).products pid =
          (lookupA db.products pid).map
            (fun p => { p with sell_price := f p.sell_price })
        from lookupA_mapSP f db.products pid]
    rcases hp : lookupA db.products pid with _ | p
    · rfl
    · rfl

/-- Helper: `recordSale` commutes with rewriting every stored sell
price: the response and all written rows are independent of the
products table prices. -/
theorem recordSale_mapSellPrice (f : ℚ → ℚ) (db : DB) (failAt : Option WStep)
    (actor : Nat) (req : SaleReq) :
    recordSale (mapSellPrice f db) failAt actor req =
      ((recordSale db failAt actor req).1,
        mapSellPrice f (recordSale db failAt actor req).2) := by
  have hinv : lookupA (mapSellPrice f db).inventory req.product_id =
      lookupA db.inventory req.product_id := rfl
  by_cases hval : (req.product_id = 0 ∨ req.quantity_sold = 0 ∨
      req.unit_price = 0 ∨ req.quantity_sold ≤ 0)
  · rw [recordSale_validation_spec _ failAt actor _ hval,
      recordSale_validation_spec _ failAt actor _ hval]
  · rcases heq : lookupA db.inventory req.product_id with _ | row
    · rw [recordSale_notFound_spec _ failAt actor _ hval (hinv.trans heq),
        recordSale_notFound_spec _ failAt actor _ hval heq]
    · by_cases hlt : row.quantity < req.quantity_sold
      · rw [recordSale_insuf_spec _ failAt actor _ row hval (hinv.trans heq) hlt,
          recordSale_insuf_spec _ failAt actor _ row hval heq hlt]
      · cases failAt with
        | none =>
          rw [recordSale_none_spec _ actor req row hval (hinv.trans heq) hlt,
            recordSale_none_spec db actor req row hval heq hlt]
          dsimp only
          rw [apply_ite (mapSellPrice f), ← createLowStockAlert_map f]
          rfl
        | some w =>
          cases w with
          | insertSale =>
            rw [recordSale_insertSaleFail_spec _ actor _ row hval (hinv.trans heq) hlt,
              recordSale_insertSaleFail_spec db actor _ row hval heq hlt]
          | updateInventory =>
            rw [recordSale_updateInvFail_spec _ actor _ row hval (hinv.trans heq) hlt,
              recordSale_updateInvFail_spec db actor _ row hval heq hlt]
          | insertMovement =>
            rw [recordSale_movementFail_spec _ actor _ row hval (hinv.trans heq) hlt,
              recordSale_movementFail_spec db actor _ row hval heq hlt]
            dsimp only
            rw [apply_ite (mapSellPrice f), ← createLowStockAlert_map f]
            rfl

/-- C10: the Sale row price fields are computed solely from the
caller-supplied `unit_price`: `recordSale` commutes with an arbitrary
rewrite of every stored sell price (so it never reads or compares the
stored price), and concretely a request with `quantity_sold = 2` and
`unit_price = -5` against a product whose stored price is 13 is
accepted and committed with a Sale row whose `total_amount` is `-10`,
a negative amount. -/
theorem salePriceFromRequestOnly :
    (∀ (f : ℚ → ℚ) (db : DB) (failAt : Option WStep) (actor : Nat) (req : SaleReq),
      recordSale (mapSellPrice f db) failAt actor req =
        ((recordSale db failAt actor req).1,
          mapSellPrice f (recordSale db failAt actor req).2)) ∧
    (recordSale dbNeg none 1 reqNeg).1 = SaleOutcome.success 1 8 false ∧
    ∃ s, (recordSale dbNeg none 1 reqNeg).2.sales = [(1, s)] ∧
      s.unit_price = -5 ∧ s.quantity_sold = 2 ∧
      s.total_amount = -10 ∧ s.total_amount < 0 := by
  refine ⟨recordSale_mapSellPrice, by decide, ?_⟩
  have h := recordSale_none_spec dbNeg 1 reqNeg
    { quantity := 10, reorder_level := 0 } (by decide) (by decide) (by decide)
  refine ⟨{ product_id := reqNeg.product_id,
            quantity_sold := reqNeg.quantity_sold,
            unit_price := reqNeg.unit_price,
            total_amount := round2 ((reqNeg.quantity_sold : ℚ) * reqNeg.unit_price),
            cashier_name := reqNeg.cashier_name,
            payment_method := reqNeg.payment_method }, ?_, rfl, rfl, ?_, ?_⟩
  · rw [h]
    dsimp only
    rw [if_neg (by decide)]
    rfl
  · norm_num [reqNeg, round2, round_eq]
  · norm_num [reqNeg, round2, round_eq]

/-- Counterexample to C1 as stated: with the StockMovement insert
failing, the `POST /api/sales` call against `dbA` (5 in stock, reorder
level 1) for 3 units still reports success, commits the Sale row and
the inventory deduction to 2, and writes no StockMovement — the
transaction is not rolled back on this write failure. -/
theorem saleCommitsDespiteMovementFailure :
    (recordSale dbA (some WStep.insertMovement) 7 reqA).1 =
      SaleOutcome.success 1 2 false ∧
    (recordSale dbA (some WStep.insertMovement) 7 reqA).2.sales.length = 1 ∧
    lookupA (recordSale dbA (some WStep.insertMovement) 7 reqA).2.inventory 1 =
      some { quantity := 2, reorder_level := 1 } ∧
    (recordSale dbA (some WStep.insertMovement) 7 reqA).2.stock_movements = [] := by
  decide

/-- Witness for C1 (amended): the movement-failure clauses instantiated
at `dbA` and `reqA`. -/
theorem saleAtomicityAmendedWitness :
    (recordSale dbA (some WStep.insertMovement) 7 reqA).2.sales.length =
        dbA.sales.length + 1 ∧
    lookupA (recordSale dbA (some WStep.insertMovement) 7 reqA).2.inventory
        reqA.product_id =
      (lookupA dbA.inventory reqA.product_id).map
        (fun r => { r with quantity := 2 }) :=
  (saleAtomicityAmended dbA 7 reqA).2.2.2 1 2 false (by decide)

/-- Counterexample to C2 as stated: the administrative update handler
performs no validation and writes the supplied quantity verbatim, so a
request carrying `quantity = -5` succeeds and leaves a negative stored
quantity. -/
theorem adminUpdateWritesNegativeQuantity :
    (updateProduct dbC 1 updC 1).1 = UpdateOutcome.ok ∧
    lookupA (updateProduct dbC 1 updC 1).2.inventory 1 =
      some { quantity := -5, reorder_level := 10 } := by
  decide

/-- Witness for C2 (amended): nonnegativity preservation instantiated
at `dbA` and `reqA`, evaluated at the updated row of product 1. -/
theorem saleQuantityNonnegWitness :
    (0 : Int) ≤ ({ quantity := 2, reorder_level := 1 } : InvRow).quantity :=
  saleQuantityNonneg dbA none 7 reqA
    (by
      intro p r h
      simp only [dbA, lookupA] at h
      split at h
      · cases h
        decide
      · exact Option.noConfusion h)
    1 { quantity := 2, reorder_level := 1 } (by decide)

/-- Witness for C3: scenario 2 of the specification — 5 in stock,
sell 10 — answers `insufficientStock 5 10` and leaves the database
unchanged. -/
theorem insufficientStockRejectionWitness :
    recordSale dbG none 4 reqI =
      (SaleOutcome.insufficientStock 5 10, dbG) :=
  insufficientStockRejection dbG none 4 reqI
    { quantity := 5, reorder_level := 15 }
    (by decide) (by decide) (by decide) (by decide) (by decide)

/-- Counterexample to C4 as stated: when the StockMovement insert
fails, the inventory change from 9 to 3 commits with no accompanying
StockMovement row. -/
theorem committedChangeWithoutMovement :
    lookupA dbB.inventory 1 = some { quantity := 9, reorder_level := 0 } ∧
    lookupA (recordSale dbB (some WStep.insertMovement) 2 reqB).2.inventory 1 =
      some { quantity := 3, reorder_level := 0 } ∧
    (recordSale dbB (some WStep.insertMovement) 2 reqB).2.stock_movements = [] := by
  decide

/-- Witness for C4 (amended): the pairing clause instantiated at `dbB`
and `reqB` with no write failure. -/
theorem movementPairingAmendedWitness :
    ∃ mv, (recordSale dbB none 2 reqB).2.stock_movements =
        dbB.stock_movements ++ [mv] ∧
      mv.product_id = 1 ∧
      mv.new_quantity = mv.previous_quantity + mv.quantity_change ∧
      (lookupA dbB.inventory 1).map (fun r => r.quantity) =
        some mv.previous_quantity ∧
      (lookupA (recordSale dbB none 2 reqB).2.inventory 1).map
          (fun r => r.quantity) = some mv.new_quantity :=
  (movementPairingAmended dbB none 2 reqB 1 updC (by decide)).1 1 (by decide)

/-- Counterexample to C5 as stated: with an ACTIVE out-of-stock alert
already present for product 1, `createLowStockAlert` inserts a second
active out-of-stock alert — the dedup lookup matches only
`low_stock`, so a duplicate active alert is produced. -/
theorem duplicateOutOfStockAlert :
    (createLowStockAlert dbDup 1 0 10).alerts.length = 2 ∧
    lookupA (createLowStockAlert dbDup 1 0 10).alerts 1 =
      some { product_id := 1, alert_type := "out_of_stock",
             message := "Mug is out of stock", status := "active",
             priority := "critical", resolved_at := none,
             resolved_by := none } ∧
    lookupA (createLowStockAlert dbDup 1 0 10).alerts 2 =
      some { product_id := 1, alert_type := "out_of_stock",
             message := "Mug is out of stock", status := "active",
             priority := "critical", resolved_at := none,
             resolved_by := none } := by
  decide

/-- Witness for C5 (amended): with an active low-stock alert for
product 1, the call inserts nothing. -/
theorem alertDedupLowStockOnlyWitness :
    createLowStockAlert dbLow 1 3 10 = dbLow :=
  alertDedupLowStockOnly dbLow 1 3 10 (by decide)

/-- Counterexample to C6 as stated: resolving the already-resolved
alert 1 does not answer `notFound` and does not leave the row
unchanged — it reports success and overwrites resolver and timestamp. -/
theorem resolveResolvedAlertSucceeds :
    (resolveAlert dbRes 1 "bob" 9).1 = ResolveOutcome.ok ∧
    lookupA (resolveAlert dbRes 1 "bob" 9).2.alerts 1 =
      some { product_id := 1, alert_type := "low_stock", message := "m",
             status := "resolved", priority := "high",
             resolved_at := some 9, resolved_by := some "bob" } := by
  decide

/-- Witness for C6 (amended): resolving the active alert 1 of `dbAct`
stamps resolver bob and timestamp 9. -/
theorem resolveAlertAmendedWitness :
    (resolveAlert dbAct 1 "bob" 9).1 = ResolveOutcome.ok ∧
    lookupA (resolveAlert dbAct 1 "bob" 9).2.alerts 1 =
      some { product_id := 1, alert_type := "low_stock", message := "m",
             status := "resolved", priority := "high",
             resolved_at := some 9, resolved_by := some "bob" } :=
  (resolveAlertAmended dbAct 1 "bob" 9).2
    { product_id := 1, alert_type := "low_stock", message := "m",
      status := "active", priority := "high",
      resolved_at := none, resolved_by := none } (by decide)

/-- Witness for C7: scenario 1 of the specification — 5 in stock,
reorder level 15, sell 3 at price 10 — succeeds with new quantity 2
and the low-stock flag raised. -/
theorem saleSuccessResponseWitness :
    (recordSale dbG none 5 reqG).1 =
      SaleOutcome.success (dbG.sales.length + 1) ((5 : Int) - 3)
        (decide ((5 : Int) - 3 ≤ (15 : Int))) ∧
    ∃ s, (recordSale dbG none 5 reqG).2.sales =
        dbG.sales ++ [(dbG.sales.length + 1, s)] ∧
      s.quantity_sold = reqG.quantity_sold ∧ s.unit_price = reqG.unit_price ∧
      s.total_amount = round2 ((reqG.quantity_sold : ℚ) * reqG.unit_price) :=
  saleSuccessResponse dbG 5 reqG { quantity := 5, reorder_level := 15 }
    (by decide) (by decide) (by decide) (by decide) (by decide)

/-- Counterexample to C8 as stated: the out-of-stock alert created for
`dbOut` (quantity 0, reorder level 10) carries the message
`Mug is out of stock`, which embeds neither the current quantity `0`
nor the reorder level `10`. -/
theorem outOfStockMessageOmitsNumbers :
    lookupA (createLowStockAlert dbOut 1 0 10).alerts 1 =
      some { product_id := 1, alert_type := "out_of_stock",
             message := "Mug is out of stock", status := "active",
             priority := "critical", resolved_at := none,
             resolved_by := none } ∧
    strContains ("Mug is out of stock") (toString (0 : Int)) = false ∧
    strContains ("Mug is out of stock") (toString (10 : Int)) = false := by
  decide

/-- Witness for C8 (amended): the classification clauses instantiated
at `dbH` with quantity 2 and reorder level 10. -/
theorem alertClassificationAmendedWitness :
    ∃ a, (createLowStockAlert dbH 1 2 10).alerts =
        dbH.alerts ++ [(dbH.alerts.length + 1, a)] ∧
      a.status = "active" ∧ a.product_id = 1 ∧
      ((2 : Int) = 0 → a.alert_type = "out_of_stock" ∧
        a.priority = "critical" ∧
        strContains a.message ("Cap") = true) ∧
      ((2 : Int) ≠ 0 → a.alert_type = "low_stock" ∧ a.priority = "high" ∧
        strContains a.message ("Cap") = true ∧
        strContains a.message (toString (2 : Int)) = true ∧
        strContains a.message (toString (10 : Int)) = true) :=
  alertClassificationAmended dbH 1 2 10 { name := "Cap", sell_price := 29 }
    (by decide) (by decide)
